import Mathlib

/-!
Verification of the token-extraction and query-descriptor pipeline of
`src/db/custom_api/custom_api.py`, together with the datapoint-store
upsert contract exercised by `src/tests/test_queries.py`.

The Python code is embedded shallowly: list mutation (`TokenHelper._pop`)
becomes explicit state passing of the token list, `CustomError400` and the
(uncaught) Python `ValueError` from `datetime.date` become constructors of
an error type threaded through `Except`.
-/

namespace DbCustomApi

/-- Errors. `customList` and `customMsg` model `CustomError400` raised with a
list payload (ambiguous token values) or a string message; `pyValueError`
models an uncaught Python `ValueError` (as raised by `datetime.date` for an
out-of-range year), which is not a `CustomError400`. -/
inductive Err where
  | customList : List String → Err
  | customMsg : String → Err
  | pyValueError : Err
deriving Repr, DecidableEq

instance {ε α : Type} [DecidableEq ε] [DecidableEq α] : DecidableEq (Except ε α) :=
  fun a b =>
    match a, b with
    | .ok x, .ok y => decidable_of_iff (x = y) (by simp)
    | .error e, .error f => decidable_of_iff (e = f) (by simp)
    | .ok _, .error _ => isFalse (by simp)
    | .error _, .ok _ => isFalse (by simp)

/-- `ALLOWED_FREQUENCIES = ('d', 'w', 'm', 'q', 'a')`. -/
def ALLOWED_FREQUENCIES : List String := ["d", "w", "m", "q", "a"]

/-- `ALLOWED_REAL_RATES = ('rog', 'yoy', 'base')`. -/
def ALLOWED_REAL_RATES : List String := ["rog", "yoy", "base"]

/-- `ALLOWED_AGGREGATORS = ('eop', 'avg')`. -/
def ALLOWED_AGGREGATORS : List String := ["eop", "avg"]

/-- `ALLOWED_FINALISERS = ('csv', 'json')` (info/xlsx are commented out). -/
def ALLOWED_FINALISERS : List String := ["csv", "json"]

/-- Python `str.isdigit()` for ASCII strings: non-empty and all digits. -/
def pyIsDigit (s : String) : Bool := !s.toList.isEmpty && s.toList.all Char.isDigit

/-- Python `int(s)` on a digit string. -/
def strToNat (s : String) : Nat :=
  s.toList.foldl (fun n c => n * 10 + (c.toNat - '0'.toNat)) 0

/-- A Python `datetime.date`-like value (the `today` parameter models
`date.today()`). -/
structure PyDate where
  year : Nat
  month : Nat
  day : Nat
deriving Repr, DecidableEq

def isLeapYear (y : Nat) : Bool :=
  (y % 4 == 0 && y % 100 != 0) || y % 400 == 0

def daysInMonth (y m : Nat) : Nat :=
  if m = 2 then (if isLeapYear y then 29 else 28)
  else if m = 4 ∨ m = 6 ∨ m = 9 ∨ m = 11 then 30
  else 31

/-- The constraint `datetime.date(year, month, day)` enforces
(`MINYEAR = 1`, `MAXYEAR = 9999`); violation raises `ValueError`. -/
def validDate (y m d : Nat) : Bool :=
  decide (1 ≤ y) && decide (y ≤ 9999) && decide (1 ≤ m) && decide (m ≤ 12) &&
  decide (1 ≤ d) && decide (d ≤ daysInMonth y m)

/-- Zero-pad a numeral to two characters (strftime `%m` / `%d`). -/
def pad2 (n : Nat) : String := if n < 10 then "0" ++ toString n else toString n

/-- `date(y, m, d).strftime('%Y-%m-%d')` (glibc `%Y` prints the year's
digits unpadded; all years in this development have four digits). -/
def fmtDate (y m d : Nat) : String :=
  toString y ++ "-" ++ pad2 m ++ "-" ++ pad2 d

/-- `TokenHelper._as_date`: builds `date(int(year), month, day)` and formats
`%Y-%m-%d`. An out-of-range component raises `ValueError`, which the source
does not catch. -/
def asDate (year month day : Nat) : Except Err String :=
  if validDate year month day then .ok (fmtDate year month day)
  else .error .pyValueError

/-- `TokenHelper._find_years`: collects the digit tokens; one match sets the
start year, two matches set start and end, anything else (including three or
more matches) sets neither; each found value is popped from the token list
(`_pop` removes the first occurrence, modelled by `List.erase`). -/
def findYears (tokens : List String) : Option String × Option String × List String :=
  match tokens.filter pyIsDigit with
  | [y] => (some y, none, tokens.erase y)
  | [y1, y2] => (some y1, some y2, (tokens.erase y1).erase y2)
  | _ => (none, none, tokens)

/-- The dictionary built by `TokenHelper.get_dates_dict`: `start_date` is
present only when a start year was found; `end_date` is always present. -/
structure DatesDict where
  start_date : Option String
  end_date : String
deriving Repr, DecidableEq

/-- `TokenHelper.get_dates_dict`, threaded with the token list it mutates.
An uncaught `ValueError` from `_as_date` propagates (first from the start
date, then from the end date, matching evaluation order). -/
def getDatesDict (today : PyDate) (tokens : List String) :
    Except Err (DatesDict × List String) :=
  match findYears tokens with
  | (startYear, endYear, remaining) =>
    match ((match startYear with
            | some y =>
              match asDate (strToNat y) 1 1 with
              | .ok s => .ok (some s)
              | .error e => .error e
            | none => .ok none) : Except Err (Option String)) with
    | .error e => .error e
    | .ok sd =>
      match (match endYear with
             | some y => asDate (strToNat y) 12 31
             | none => asDate today.year today.month today.day) with
      | .error e => .error e
      | .ok ed => .ok ({ start_date := sd, end_date := ed }, remaining)

/-- `TokenHelper._find_one`: `values_found = [p for p in allowed_values if p
in self.tokens]`; no match returns `None`, exactly one match is popped and
returned, more than one distinct match raises `CustomError400(values_found)`. -/
def findOne (allowedValues tokens : List String) :
    Except Err (Option String × List String) :=
  match allowedValues.filter (fun p => tokens.contains p) with
  | [] => .ok (none, tokens)
  | [x] => .ok (some x, tokens.erase x)
  | x :: y :: rest => .error (.customList (x :: y :: rest))

/-- Python truthiness of an optional string (`None` and `''` are falsy). -/
def pyTruthy : Option String → Bool
  | none => false
  | some s => !s.toList.isEmpty

/-- Python `x or None` for an optional string. -/
def pyOrNone (x : Option String) : Option String :=
  if pyTruthy x then x else none

/-- Python `str.split('/')`: cut the character list at every separator;
adjacent separators and boundary separators produce empty segments. -/
def splitChar (sep : Char) : List Char → List (List Char)
  | [] => [[]]
  | c :: rest =>
    match splitChar sep rest with
    | [] => if c = sep then [[], [c]] else [[c]]
    | w :: ws => if c = sep then [] :: w :: ws else (c :: w) :: ws

/-- Python `str.strip()` for ASCII whitespace. -/
def pyStrip (s : String) : String :=
  let ws : Char → Bool := fun c =>
    c = ' ' || c = '\t' || c = '\n' || c = '\r' || c = '\x0b' || c = '\x0c'
  String.mk (((s.toList.dropWhile ws).reverse.dropWhile ws).reverse)

/-- `tokens = [token.strip() for token in inner_path.split('/') if token]`
from `InnerPath.__init__`: the emptiness filter runs on the raw segment,
before stripping. -/
def tokenize (inner_path : String) : List String :=
  (((splitChar '/' inner_path.toList).map String.mk).filter
      (fun t => !t.toList.isEmpty)).map pyStrip

/-- The attributes `InnerPath.__init__` stores on the object. -/
structure InnerPathR where
  dates : DatesDict
  fin : Option String
  rate : Option String
  agg : Option String
  unit : Option String
deriving Repr, DecidableEq

/-- `InnerPath.__init__` after tokenization: year extraction, finaliser,
rate, aggregator, the rate/aggregation mutual-exclusion check, then the
unit rule (`tokens[0]` if tokens remain, else `self.rate or None`). -/
def innerPathTokens (today : PyDate) (tokens : List String) : Except Err InnerPathR :=
  match getDatesDict today tokens with
  | .error e => .error e
  | .ok (dates, tokens1) =>
    match findOne ALLOWED_FINALISERS tokens1 with
    | .error e => .error e
    | .ok (fin, tokens2) =>
      match findOne ALLOWED_REAL_RATES tokens2 with
      | .error e => .error e
      | .ok (rate, tokens3) =>
        match findOne ALLOWED_AGGREGATORS tokens3 with
        | .error e => .error e
        | .ok (agg, tokens4) =>
          if pyTruthy rate && pyTruthy agg then
            .error (.customMsg "Cannot combine rate and aggregation.")
          else
            .ok { dates := dates, fin := fin, rate := rate, agg := agg,
                  unit := match tokens4 with
                          | u :: _ => some u
                          | [] => pyOrNone rate }

/-- `InnerPath(inner_path)`. -/
def innerPath (today : PyDate) (inner_path : String) : Except Err InnerPathR :=
  innerPathTokens today (tokenize inner_path)

/-- `CustomGET.make_name`: append `_unit` only when `unit` is truthy. -/
def make_name (varname : String) (unit : Option String) : String :=
  match unit with
  | some u => if u.toList.isEmpty then varname else varname ++ "_" ++ u
  | none => varname

/-- `CustomGET.make_freq`: reject frequencies outside the allowed set. -/
def make_freq (freq : String) : Except Err String :=
  if ALLOWED_FREQUENCIES.contains freq then .ok freq
  else .error (.customMsg ("Frequency <" ++ freq ++ "> is not valid"))

/-- The `params` dictionary built by `CustomGET.__init__`. -/
structure Params where
  freq : String
  name : String
  start_date : Option String
  end_date : String
deriving Repr, DecidableEq

/-- `CustomGET.__init__`: parse the inner path (its errors surface first),
validate the frequency, build the name, copy the dates. `domain` is
accepted and unused. -/
def customGET (today : PyDate) (domain varname freq inner_path : String) :
    Except Err Params :=
  match innerPath today inner_path with
  | .error e => .error e
  | .ok ip =>
    match make_freq freq with
    | .error e => .error e
    | .ok f =>
      .ok { freq := f, name := make_name varname ip.unit,
            start_date := ip.dates.start_date, end_date := ip.dates.end_date }

/-- One time-series observation; natural key `(freq, name, date)`
(`src/tests/test_queries.py` serializes it as
`{"date", "freq", "name", "value"}`). -/
structure Datapoint where
  freq : String
  name : String
  date : String
  value : Rat
deriving Repr, DecidableEq

/-- Records collide exactly when their `(freq, name, date)` keys agree. -/
def sameKey (a b : Datapoint) : Bool :=
  a.freq == b.freq && a.name == b.name && a.date == b.date

/-- Modelled from the spec: `db.api.queries.upsert` is not under `src/`
(only `src/tests/test_queries.py` exercises it). Per the spec, if a record
with matching `(freq, name, date)` exists its `value` is replaced with the
incoming value (the key fields are identical by definition of the match);
otherwise a new record is inserted. The store is a record list carrying
the `(freq, name, date)` uniqueness constraint as an invariant. -/
def upsert (d : Datapoint) (store : List Datapoint) : List Datapoint :=
  if store.any (fun r => sameKey r d) then
    store.map (fun r => if sameKey r d then d else r)
  else
    store ++ [d]

/-! ### Helper lemmas -/

lemma asDate_ok {y m d : Nat} (h : validDate y m d = true) :
    asDate y m d = .ok (fmtDate y m d) := by
  simp [asDate, h]

lemma validDate_jan1 {y : Nat} (h1 : 1 ≤ y) (h2 : y ≤ 9999) :
    validDate y 1 1 = true := by
  simp [validDate, daysInMonth, h1, h2]

lemma validDate_dec31 {y : Nat} (h1 : 1 ≤ y) (h2 : y ≤ 9999) :
    validDate y 12 31 = true := by
  simp [validDate, daysInMonth, h1, h2]

lemma findYears_of_no_digit {tokens : List String}
    (hf : tokens.filter pyIsDigit = []) :
    findYears tokens = (none, none, tokens) := by
  unfold findYears; rw [hf]

lemma findYears_of_one_digit {tokens : List String} {y : String}
    (hf : tokens.filter pyIsDigit = [y]) :
    findYears tokens = (some y, none, tokens.erase y) := by
  unfold findYears; rw [hf]

lemma findYears_of_two_digits {tokens : List String} {y1 y2 : String}
    (hf : tokens.filter pyIsDigit = [y1, y2]) :
    findYears tokens = (some y1, some y2, (tokens.erase y1).erase y2) := by
  unfold findYears; rw [hf]

lemma findYears_of_three_digits {tokens : List String}
    (h3 : 3 ≤ (tokens.filter pyIsDigit).length) :
    findYears tokens = (none, none, tokens) := by
  unfold findYears
  rcases hf : tokens.filter pyIsDigit with _ | ⟨a, _ | ⟨b, _ | ⟨c, rest⟩⟩⟩ <;>
    rw [hf] at h3 <;> first | rfl | simp at h3

lemma getDatesDict_no_years {today : PyDate} {tokens : List String}
    (htoday : validDate today.year today.month today.day = true)
    (hf : tokens.filter pyIsDigit = []) :
    getDatesDict today tokens =
      .ok ({ start_date := none,
             end_date := fmtDate today.year today.month today.day }, tokens) := by
  unfold getDatesDict
  simp only [findYears_of_no_digit hf, asDate_ok htoday]

lemma getDatesDict_one_year {today : PyDate} {tokens : List String} {y : String}
    (htoday : validDate today.year today.month today.day = true)
    (hf : tokens.filter pyIsDigit = [y])
    (hy1 : 1 ≤ strToNat y) (hy2 : strToNat y ≤ 9999) :
    getDatesDict today tokens =
      .ok ({ start_date := some (fmtDate (strToNat y) 1 1),
             end_date := fmtDate today.year today.month today.day },
           tokens.erase y) := by
  unfold getDatesDict
  simp only [findYears_of_one_digit hf, asDate_ok (validDate_jan1 hy1 hy2),
    asDate_ok htoday]

lemma getDatesDict_two_years {today : PyDate} {tokens : List String} {y1 y2 : String}
    (hf : tokens.filter pyIsDigit = [y1, y2])
    (h11 : 1 ≤ strToNat y1) (h12 : strToNat y1 ≤ 9999)
    (h21 : 1 ≤ strToNat y2) (h22 : strToNat y2 ≤ 9999) :
    getDatesDict today tokens =
      .ok ({ start_date := some (fmtDate (strToNat y1) 1 1),
             end_date := fmtDate (strToNat y2) 12 31 },
           (tokens.erase y1).erase y2) := by
  unfold getDatesDict
  simp only [findYears_of_two_digits hf, asDate_ok (validDate_jan1 h11 h12),
    asDate_ok (validDate_dec31 h21 h22)]

lemma findOne_of_none {cat tokens : List String}
    (hf : cat.filter (fun p => tokens.contains p) = []) :
    findOne cat tokens = .ok (none, tokens) := by
  unfold findOne; rw [hf]

lemma findOne_of_one {cat tokens : List String} {x : String}
    (hf : cat.filter (fun p => tokens.contains p) = [x]) :
    findOne cat tokens = .ok (some x, tokens.erase x) := by
  unfold findOne; rw [hf]

lemma findOne_of_many {cat tokens : List String} {x y : String} {rest : List String}
    (hf : cat.filter (fun p => tokens.contains p) = x :: y :: rest) :
    findOne cat tokens = .error (.customList (x :: y :: rest)) := by
  unfold findOne; rw [hf]

lemma contains_erase_of_ne (l : List String) {x y : String} (h : x ≠ y) :
    (l.erase y).contains x = l.contains x := by
  by_cases hx : x ∈ l
  · have hx2 : x ∈ l.erase y := (List.mem_erase_of_ne h).mpr hx
    simp [List.contains, List.elem_eq_mem, hx, hx2]
  · have hx2 : x ∉ l.erase y := fun hc => hx ((List.mem_erase_of_ne h).mp hc)
    simp [List.contains, List.elem_eq_mem, hx, hx2]

lemma filter_contains_erase (cat l : List String) {y : String} (hy : y ∉ cat) :
    cat.filter (fun p => (l.erase y).contains p) = cat.filter (fun p => l.contains p) :=
  List.filter_congr (fun p hp => contains_erase_of_ne l (fun hpy => hy (hpy ▸ hp)))

lemma mem_of_filter_contains {cat tokens : List String} {x : String} {rest : List String}
    (hf : cat.filter (fun p => tokens.contains p) = x :: rest) : x ∈ cat := by
  have : x ∈ cat.filter (fun p => tokens.contains p) := by rw [hf]; simp
  exact (List.mem_filter.mp this).1

lemma rate_not_agg {r : String} (h : r ∈ ALLOWED_REAL_RATES) :
    r ∉ ALLOWED_AGGREGATORS := by
  simp only [ALLOWED_REAL_RATES, List.mem_cons, List.not_mem_nil, or_false] at h
  rcases h with h | h | h <;> subst h <;> decide

lemma fin_not_rate {f : String} (h : f ∈ ALLOWED_FINALISERS) :
    f ∉ ALLOWED_REAL_RATES := by
  simp only [ALLOWED_FINALISERS, List.mem_cons, List.not_mem_nil, or_false] at h
  rcases h with h | h <;> subst h <;> decide

lemma fin_not_agg {f : String} (h : f ∈ ALLOWED_FINALISERS) :
    f ∉ ALLOWED_AGGREGATORS := by
  simp only [ALLOWED_FINALISERS, List.mem_cons, List.not_mem_nil, or_false] at h
  rcases h with h | h <;> subst h <;> decide

lemma pyTruthy_of_mem_rates {r : String} (h : r ∈ ALLOWED_REAL_RATES) :
    pyTruthy (some r) = true := by
  simp only [ALLOWED_REAL_RATES, List.mem_cons, List.not_mem_nil, or_false] at h
  rcases h with h | h | h <;> subst h <;> decide

lemma pyTruthy_of_mem_aggs {a : String} (h : a ∈ ALLOWED_AGGREGATORS) :
    pyTruthy (some a) = true := by
  simp only [ALLOWED_AGGREGATORS, List.mem_cons, List.not_mem_nil, or_false] at h
  rcases h with h | h <;> subst h <;> decide

/-- The spine of `InnerPath.__init__` once each extraction stage's result is
known. -/
lemma innerPathTokens_eq (today : PyDate) (tokens t1 t2 t3 t4 : List String)
    (dd : DatesDict) (f r a : Option String)
    (h1 : getDatesDict today tokens = .ok (dd, t1))
    (h2 : findOne ALLOWED_FINALISERS t1 = .ok (f, t2))
    (h3 : findOne ALLOWED_REAL_RATES t2 = .ok (r, t3))
    (h4 : findOne ALLOWED_AGGREGATORS t3 = .ok (a, t4)) :
    innerPathTokens today tokens =
      if pyTruthy r && pyTruthy a then
        .error (.customMsg "Cannot combine rate and aggregation.")
      else
        .ok { dates := dd, fin := f, rate := r, agg := a,
              unit := match t4 with
                      | u :: _ => some u
                      | [] => pyOrNone r } := by
  unfold innerPathTokens
  simp only [h1, h2, h3, h4]
  cases t4 <;> rfl

lemma sameKey_refl (d : Datapoint) : sameKey d d = true := by
  simp [sameKey]

lemma upsert_of_any {d : Datapoint} {l : List Datapoint}
    (h : l.any (fun r => sameKey r d) = true) :
    upsert d l = l.map (fun r => if sameKey r d then d else r) := by
  unfold upsert; rw [if_pos h]

lemma upsert_of_not_any {d : Datapoint} {l : List Datapoint}
    (h : ¬l.any (fun r => sameKey r d) = true) :
    upsert d l = l ++ [d] := by
  unfold upsert; rw [if_neg h]

lemma upsert_mem_key (d : Datapoint) (store : List Datapoint) :
    ∀ r ∈ upsert d store, sameKey r d = true → r = d := by
  intro r hr hk
  unfold upsert at hr
  by_cases h : store.any (fun r => sameKey r d) = true
  · rw [if_pos h] at hr
    rcases List.mem_map.mp hr with ⟨s, _, hsr⟩
    by_cases hks : sameKey s d = true
    · rw [if_pos hks] at hsr; exact hsr.symm
    · rw [if_neg hks] at hsr; rw [hsr] at hks; exact absurd hk hks
  · rw [if_neg h] at hr
    rcases List.mem_append.mp hr with hr | hr
    · exact absurd (List.any_eq_true.mpr ⟨r, hr, hk⟩) h
    · simpa using hr

lemma countP_upsert (d : Datapoint) (store : List Datapoint)
    (h : store.countP (fun r => sameKey r d) ≤ 1) :
    (upsert d store).countP (fun r => sameKey r d) = 1 := by
  by_cases ha : store.any (fun r => sameKey r d) = true
  · rw [upsert_of_any ha, List.countP_map]
    have hpt : store.countP ((fun r => sameKey r d) ∘ fun r => if sameKey r d then d else r)
        = store.countP (fun r => sameKey r d) := by
      apply List.countP_congr
      intro x _
      by_cases hx : sameKey x d = true <;>
        simp [Function.comp, hx, sameKey_refl]
    rw [hpt]
    rcases List.any_eq_true.mp ha with ⟨x, hx, hkx⟩
    have : 0 < store.countP (fun r => sameKey r d) :=
      List.countP_pos_iff.mpr ⟨x, hx, hkx⟩
    omega
  · rw [upsert_of_not_any ha, List.countP_append]
    have h0 : store.countP (fun r => sameKey r d) = 0 := by
      rw [List.countP_eq_zero]
      intro x hx hkx
      exact ha (List.any_eq_true.mpr ⟨x, hx, hkx⟩)
    simp [h0, sameKey_refl]

lemma upsert_idem (d : Datapoint) (store : List Datapoint) :
    upsert d (upsert d store) = upsert d store := by
  have hany : (upsert d store).any (fun r => sameKey r d) = true := by
    by_cases ha : store.any (fun r => sameKey r d) = true
    · rw [upsert_of_any ha]
      rcases List.any_eq_true.mp ha with ⟨x, hx, hkx⟩
      exact List.any_eq_true.mpr
        ⟨d, List.mem_map.mpr ⟨x, hx, by rw [if_pos hkx]⟩, sameKey_refl d⟩
    · rw [upsert_of_not_any ha]
      exact List.any_eq_true.mpr ⟨d, by simp, sameKey_refl d⟩
  rw [upsert_of_any hany]
  have : ∀ r ∈ upsert d store, (if sameKey r d then d else r) = r := by
    intro r hr
    by_cases hk : sameKey r d = true
    · rw [if_pos hk, upsert_mem_key d store r hr hk]
    · rw [if_neg hk]
  rw [List.map_congr_left this]
  exact List.map_id (upsert d store)

lemma toList_isEmpty_false {s : String} (h : s ≠ "") : s.toList.isEmpty = false := by
  cases s with
  | mk data =>
    cases data with
    | nil => exact absurd rfl h
    | cons c cs => rfl

end DbCustomApi

open DbCustomApi

/-! ### Claims -/

/-- C1 (amended): for each single-valued category (finalisers, rates,
aggregators), if the token sequence contains no member value extraction
returns `none` and leaves the sequence unchanged; if it contains occurrences
of exactly one distinct member value extraction returns that member and
removes only its first occurrence; if two or more distinct member values are
present extraction fails with `CustomError400` reporting exactly the matched
values (in category order). -/
theorem C1_single_valued_category (cat tokens : List String)
    (hcat : cat = ALLOWED_FINALISERS ∨ cat = ALLOWED_REAL_RATES ∨
      cat = ALLOWED_AGGREGATORS) :
    (cat.filter (fun p => tokens.contains p) = [] →
        findOne cat tokens = .ok (none, tokens)) ∧
    (∀ x, cat.filter (fun p => tokens.contains p) = [x] →
        findOne cat tokens = .ok (some x, tokens.erase x)) ∧
    (∀ x y rest, cat.filter (fun p => tokens.contains p) = x :: y :: rest →
        findOne cat tokens = .error (.customList (x :: y :: rest))) :=
  ⟨fun h => findOne_of_none h, fun _ h => findOne_of_one h,
   fun _ _ _ h => findOne_of_many h⟩

theorem C1_single_valued_category_witness :
    findOne ALLOWED_FINALISERS ["csv", "x"] = .ok (some "csv", ["csv", "x"].erase "csv") ∧
    findOne ALLOWED_REAL_RATES ["yoy", "rog"] = .error (.customList ["rog", "yoy"]) :=
  ⟨(C1_single_valued_category ALLOWED_FINALISERS ["csv", "x"]
      (Or.inl rfl)).2.1 "csv" (by decide),
   (C1_single_valued_category ALLOWED_REAL_RATES ["yoy", "rog"]
      (Or.inr (Or.inl rfl))).2.2 "rog" "yoy" [] (by decide)⟩

/-- C1 counterexample: `["csv", "csv"]` contains two tokens that are members
of the finaliser category, yet extraction succeeds (the duplicate value
counts as one match) and removes only the first occurrence. -/
theorem C1_counterexample :
    ["csv", "csv"].countP (fun t => ALLOWED_FINALISERS.contains t) = 2 ∧
    findOne ALLOWED_FINALISERS ["csv", "csv"] = .ok (some "csv", ["csv"]) := by
  constructor <;> decide

/-- C2 (amended): with no integer token, no `start_date` is produced and
`end_date` is the formatted current date; with exactly one integer token `Y`
whose value is a valid calendar year, `start_date` is Jan 1 of `Y` and
`end_date` the current date, and `Y` is removed; with exactly two integer
tokens `Y1` then `Y2` (in order of appearance) whose values are valid
calendar years, `start_date` is Jan 1 of `Y1`, `end_date` is Dec 31 of `Y2`,
and both tokens are removed. A selected year outside 1..9999 instead raises
an uncaught `ValueError` (see the counterexample and C7). -/
theorem C2_year_extraction (today : PyDate) (tokens : List String)
    (htoday : validDate today.year today.month today.day = true) :
    (tokens.filter pyIsDigit = [] →
        getDatesDict today tokens =
          .ok ({ start_date := none,
                 end_date := fmtDate today.year today.month today.day }, tokens)) ∧
    (∀ y, tokens.filter pyIsDigit = [y] →
        1 ≤ strToNat y → strToNat y ≤ 9999 →
        getDatesDict today tokens =
          .ok ({ start_date := some (fmtDate (strToNat y) 1 1),
                 end_date := fmtDate today.year today.month today.day },
               tokens.erase y)) ∧
    (∀ y1 y2, tokens.filter pyIsDigit = [y1, y2] →
        1 ≤ strToNat y1 → strToNat y1 ≤ 9999 →
        1 ≤ strToNat y2 → strToNat y2 ≤ 9999 →
        getDatesDict today tokens =
          .ok ({ start_date := some (fmtDate (strToNat y1) 1 1),
                 end_date := fmtDate (strToNat y2) 12 31 },
               (tokens.erase y1).erase y2)) :=
  ⟨fun h => getDatesDict_no_years htoday h,
   fun _ h h1 h2 => getDatesDict_one_year htoday h h1 h2,
   fun _ _ h h11 h12 h21 h22 => getDatesDict_two_years h h11 h12 h21 h22⟩

theorem C2_year_extraction_witness :
    getDatesDict ⟨2026, 10, 12⟩ ["2015", "2017"] =
      .ok ({ start_date := some (fmtDate (strToNat "2015") 1 1),
             end_date := fmtDate (strToNat "2017") 12 31 },
           (["2015", "2017"].erase "2015").erase "2017") :=
  (C2_year_extraction ⟨2026, 10, 12⟩ ["2015", "2017"] (by decide)).2.2 "2015" "2017"
    (by decide) (by decide) (by decide) (by decide) (by decide)

/-- C2 counterexample: `"10000"` is an integer token, yet year extraction
does not yield `start_date = 10000-01-01`: building the date raises an
uncaught `ValueError` because the year exceeds `datetime.MAXYEAR`. -/
theorem C2_counterexample :
    pyIsDigit "10000" = true ∧
    getDatesDict ⟨2026, 10, 12⟩ ["10000"] = .error .pyValueError := by
  constructor <;> decide

/-- C3 (amended): a token sequence that (after year extraction succeeds)
contains at most one distinct finaliser value, exactly one distinct rate
value and exactly one distinct aggregator value — in any order — fails with
`CustomError400("Cannot combine rate and aggregation.")`. (When a category
is ambiguous, the ambiguity error fires first; see the counterexample.) -/
theorem C3_rate_agg_mutually_exclusive (today : PyDate) (tokens t1 : List String)
    (dd : DatesDict) (r a : String)
    (hyears : getDatesDict today tokens = .ok (dd, t1))
    (hfin : (ALLOWED_FINALISERS.filter (fun p => t1.contains p)).length ≤ 1)
    (hrate : ALLOWED_REAL_RATES.filter (fun p => t1.contains p) = [r])
    (hagg : ALLOWED_AGGREGATORS.filter (fun p => t1.contains p) = [a]) :
    innerPathTokens today tokens =
      .error (.customMsg "Cannot combine rate and aggregation.") := by
  have hrmem : r ∈ ALLOWED_REAL_RATES := mem_of_filter_contains hrate
  have hamem : a ∈ ALLOWED_AGGREGATORS := mem_of_filter_contains hagg
  rcases hff : ALLOWED_FINALISERS.filter (fun p => t1.contains p) with _ | ⟨f, _ | ⟨f2, fr⟩⟩
  · have hagg3 : ALLOWED_AGGREGATORS.filter (fun p => (t1.erase r).contains p) = [a] := by
      rw [filter_contains_erase _ _ (rate_not_agg hrmem), hagg]
    rw [innerPathTokens_eq today tokens t1 t1 (t1.erase r) ((t1.erase r).erase a) dd
      none (some r) (some a) hyears (findOne_of_none hff) (findOne_of_one hrate)
      (findOne_of_one hagg3)]
    rw [if_pos]
    simp [pyTruthy_of_mem_rates hrmem, pyTruthy_of_mem_aggs hamem]
  · have hfmem : f ∈ ALLOWED_FINALISERS := mem_of_filter_contains hff
    have hrate2 : ALLOWED_REAL_RATES.filter (fun p => (t1.erase f).contains p) = [r] := by
      rw [filter_contains_erase _ _ (fin_not_rate hfmem), hrate]
    have hagg3 : ALLOWED_AGGREGATORS.filter
        (fun p => ((t1.erase f).erase r).contains p) = [a] := by
      rw [filter_contains_erase _ _ (rate_not_agg hrmem),
        filter_contains_erase _ _ (fin_not_agg hfmem), hagg]
    rw [innerPathTokens_eq today tokens t1 (t1.erase f) ((t1.erase f).erase r)
      (((t1.erase f).erase r).erase a) dd (some f) (some r) (some a) hyears
      (findOne_of_one hff) (findOne_of_one hrate2) (findOne_of_one hagg3)]
    rw [if_pos]
    simp [pyTruthy_of_mem_rates hrmem, pyTruthy_of_mem_aggs hamem]
  · rw [hff] at hfin
    simp at hfin

theorem C3_rate_agg_mutually_exclusive_witness :
    innerPathTokens ⟨2026, 10, 12⟩ ["rog", "eop"] =
      .error (.customMsg "Cannot combine rate and aggregation.") :=
  C3_rate_agg_mutually_exclusive ⟨2026, 10, 12⟩ ["rog", "eop"] ["rog", "eop"]
    { start_date := none, end_date := "2026-10-12" } "rog" "eop"
    (by decide) (by decide) (by decide) (by decide)

/-- C3 counterexample: `["rog", "yoy", "eop"]` contains a rate token and an
aggregator token, yet extraction fails with the rate-ambiguity
`CustomError400(['rog', 'yoy'])`, not the mutual-exclusion error. -/
theorem C3_counterexample :
    innerPathTokens ⟨2026, 10, 12⟩ ["rog", "yoy", "eop"] =
      .error (.customList ["rog", "yoy"]) ∧
    Err.customList ["rog", "yoy"] ≠
      Err.customMsg "Cannot combine rate and aggregation." := by
  constructor <;> decide

/-- C5 (amended): with more than two integer tokens, year extraction
extracts nothing at all: no `start_date`, `end_date` defaults to the current
date, and every token — including all the integer tokens — remains in the
sequence. -/
theorem C5_more_than_two_years (today : PyDate) (tokens : List String)
    (htoday : validDate today.year today.month today.day = true)
    (h3 : 3 ≤ (tokens.filter pyIsDigit).length) :
    getDatesDict today tokens =
      .ok ({ start_date := none,
             end_date := fmtDate today.year today.month today.day }, tokens) := by
  unfold getDatesDict
  simp only [findYears_of_three_digits h3, asDate_ok htoday]

theorem C5_more_than_two_years_witness :
    getDatesDict ⟨2026, 10, 12⟩ ["1999", "2000", "2001", "x"] =
      .ok ({ start_date := none, end_date := fmtDate 2026 10 12 },
           ["1999", "2000", "2001", "x"]) :=
  C5_more_than_two_years ⟨2026, 10, 12⟩ ["1999", "2000", "2001", "x"]
    (by decide) (by decide)

/-- C5 counterexample: on `["2000", "2001", "2002"]` the claim predicts
`start_date = 2000-01-01`, `end_date = 2001-12-31` and the removal of the
first two integer tokens; the code instead extracts nothing (`start_date`
is `none`) and leaves all three tokens in place. -/
theorem C5_counterexample :
    getDatesDict ⟨2026, 10, 12⟩ ["2000", "2001", "2002"] =
      .ok ({ start_date := none, end_date := "2026-10-12" },
           ["2000", "2001", "2002"]) ∧
    (none : Option String) ≠ some "2000-01-01" := by
  constructor <;> decide


/-- C4: after year, finaliser, rate and aggregator extraction succeed (and
the mutual-exclusion check passes), the unit is the first remaining token in
original order when tokens remain; with no tokens remaining it falls back to
the extracted rate value when one was found (so path `rog` yields both
`rate = "rog"` and `unit = "rog"`), and is absent otherwise. -/
theorem C4_unit_rule (today : PyDate) (tokens t1 t2 t3 t4 : List String)
    (dd : DatesDict) (f r a : Option String)
    (h1 : getDatesDict today tokens = .ok (dd, t1))
    (h2 : findOne ALLOWED_FINALISERS t1 = .ok (f, t2))
    (h3 : findOne ALLOWED_REAL_RATES t2 = .ok (r, t3))
    (h4 : findOne ALLOWED_AGGREGATORS t3 = .ok (a, t4))
    (h5 : ¬(pyTruthy r = true ∧ pyTruthy a = true)) :
    (∀ u rest, t4 = u :: rest →
        innerPathTokens today tokens =
          .ok { dates := dd, fin := f, rate := r, agg := a, unit := some u }) ∧
    (∀ rv, t4 = [] → r = some rv → rv ≠ "" →
        innerPathTokens today tokens =
          .ok { dates := dd, fin := f, rate := r, agg := a, unit := some rv }) ∧
    (t4 = [] → r = none →
        innerPathTokens today tokens =
          .ok { dates := dd, fin := f, rate := r, agg := a, unit := none }) ∧
    (validDate today.year today.month today.day = true →
        innerPath today "rog" =
          .ok { dates := { start_date := none,
                           end_date := fmtDate today.year today.month today.day },
                fin := none, rate := some "rog", agg := none,
                unit := some "rog" }) := by
  have hcond : (pyTruthy r && pyTruthy a) = false := by
    cases hr : pyTruthy r <;> cases ha : pyTruthy a <;> simp_all
  have hmain := innerPathTokens_eq today tokens t1 t2 t3 t4 dd f r a h1 h2 h3 h4
  rw [hcond] at hmain
  simp only [Bool.false_eq_true, if_false] at hmain
  refine ⟨?_, ?_, ?_, ?_⟩
  · intro u rest ht
    subst ht
    exact hmain
  · intro rv ht hrv hne
    subst ht
    subst hrv
    have htr : pyTruthy (some rv) = true := by
      show (!rv.toList.isEmpty) = true
      rw [toList_isEmpty_false hne]
      rfl
    have hp : pyOrNone (some rv) = some rv := by
      simp [pyOrNone, htr]
    rw [hmain]
    exact congrArg Except.ok (congrArg (InnerPathR.mk dd f (some rv) a) hp)
  · intro ht hr
    subst ht
    subst hr
    exact hmain
  · intro htoday
    show innerPathTokens today (tokenize "rog") = _
    rw [show tokenize "rog" = ["rog"] from by decide]
    rw [innerPathTokens_eq today ["rog"] ["rog"] ["rog"] [] [] _ none (some "rog")
      none (getDatesDict_no_years htoday (by decide)) (by decide) (by decide)
      (by decide)]
    rfl

theorem C4_unit_rule_witness :
    innerPathTokens ⟨2026, 10, 12⟩ ["usd"] =
      .ok { dates := { start_date := none, end_date := "2026-10-12" },
            fin := none, rate := none, agg := none, unit := some "usd" } :=
  (C4_unit_rule ⟨2026, 10, 12⟩ ["usd"] ["usd"] ["usd"] ["usd"] ["usd"]
      { start_date := none, end_date := "2026-10-12" } none none none
      (by decide) (by decide) (by decide) (by decide) (by decide)).1 "usd" [] rfl

/-- C6: evaluation of the tokenizer at the failing input `"a/ /b"` — the
emptiness filter runs before stripping, so the whitespace-only middle
segment survives the filter and is stripped down to the empty string, which
appears in the output contradicting the claim that every output token is
non-empty. -/
theorem C6_tokenizer_eval :
    tokenize "a/ /b" = ["a", "", "b"] ∧ "" ∈ tokenize "a/ /b" := by
  constructor <;> decide

/-- C7: evaluation of year extraction at the failing input `"0"` — the year
token `0` is selected (it is all digits) but is below `datetime.MINYEAR`, so
`date()` raises `ValueError`, which the code does not catch: the failure is
an unstructured `ValueError`, not a `CustomError400` validation failure. -/
theorem C7_malformed_year_eval :
    getDatesDict ⟨2026, 10, 12⟩ ["0"] = .error .pyValueError ∧
    innerPath ⟨2026, 10, 12⟩ "0" = .error .pyValueError := by
  constructor <;> decide

/-- C8 (amended): the series name equals `variable_name` when the unit is
absent and `variable_name + "_" + unit` when a non-empty unit was extracted;
an extracted empty-string unit (reachable via a whitespace-only path
segment, see C6) is treated as absent. Path `bln_rub` with variable name
`EXPORT_GOODS` yields `EXPORT_GOODS_bln_rub`, no `start_date`, and the
default `end_date`. -/
theorem C8_series_name (varname u : String) (today : PyDate)
    (htoday : validDate today.year today.month today.day = true)
    (hu : u ≠ "") :
    make_name varname none = varname ∧
    make_name varname (some u) = varname ++ "_" ++ u ∧
    make_name varname (some "") = varname ∧
    customGET today "ru" "EXPORT_GOODS" "m" "bln_rub" =
      .ok { freq := "m", name := "EXPORT_GOODS_bln_rub",
            start_date := none,
            end_date := fmtDate today.year today.month today.day } := by
  refine ⟨rfl, ?_, rfl, ?_⟩
  · show (if u.toList.isEmpty then varname else varname ++ "_" ++ u) = _
    rw [toList_isEmpty_false hu]
    rfl
  · have hip : innerPath today "bln_rub" =
        .ok { dates := { start_date := none,
                         end_date := fmtDate today.year today.month today.day },
              fin := none, rate := none, agg := none,
              unit := some "bln_rub" } := by
      show innerPathTokens today (tokenize "bln_rub") = _
      rw [show tokenize "bln_rub" = ["bln_rub"] from by decide]
      rw [innerPathTokens_eq today ["bln_rub"] ["bln_rub"] ["bln_rub"] ["bln_rub"]
        ["bln_rub"] _ none none none (getDatesDict_no_years htoday (by decide))
        (by decide) (by decide) (by decide)]
      rfl
    unfold customGET
    rw [hip]
    rfl

theorem C8_series_name_witness :
    make_name "VAR" none = "VAR" ∧
    make_name "VAR" (some "usd") = "VAR" ++ "_" ++ "usd" ∧
    make_name "VAR" (some "") = "VAR" ∧
    customGET ⟨2026, 10, 12⟩ "ru" "EXPORT_GOODS" "m" "bln_rub" =
      .ok { freq := "m", name := "EXPORT_GOODS_bln_rub", start_date := none,
            end_date := fmtDate 2026 10 12 } :=
  C8_series_name "VAR" "usd" ⟨2026, 10, 12⟩ (by decide) (by decide)

/-- C8 counterexample: the inner path `" "` (one whitespace-only segment)
extracts the unit `""` — a unit *was* extracted — yet `make_name` treats it
as absent: the series name is `EXPORT_GOODS`, not
`EXPORT_GOODS ++ "_" ++ ""`. -/
theorem C8_counterexample :
    innerPath ⟨2026, 10, 12⟩ " " =
      .ok { dates := { start_date := none, end_date := "2026-10-12" },
            fin := none, rate := none, agg := none, unit := some "" } ∧
    make_name "EXPORT_GOODS" (some "") = "EXPORT_GOODS" ∧
    "EXPORT_GOODS" ≠ "EXPORT_GOODS" ++ "_" ++ "" := by
  refine ⟨by decide, by decide, by decide⟩

/-- C9: `upsert` is idempotent and value-replacing. For any store whose
records are unique at `d`'s key (the store's uniqueness constraint), after
`upsert d` the store holds exactly one record with key
`(d.freq, d.name, d.date)`, every record at that key is exactly `d` (so its
value is `d.value`), and upserting `d` a second time changes nothing. -/
theorem C9_upsert_idempotent (d : Datapoint) (store : List Datapoint)
    (huniq : store.countP (fun r => sameKey r d) ≤ 1) :
    (upsert d store).countP (fun r => sameKey r d) = 1 ∧
    (∀ r ∈ upsert d store, sameKey r d = true → r = d) ∧
    upsert d (upsert d store) = upsert d store ∧
    (upsert d (upsert d store)).countP (fun r => sameKey r d) = 1 :=
  ⟨countP_upsert d store huniq, upsert_mem_key d store, upsert_idem d store,
   by rw [upsert_idem d store]; exact countP_upsert d store huniq⟩

theorem C9_upsert_idempotent_witness :
    (upsert ⟨"q", "CPI_rog", "2016-04-21", 1234 / 10⟩ []).countP
        (fun r => sameKey r ⟨"q", "CPI_rog", "2016-04-21", 1234 / 10⟩) = 1 ∧
    upsert ⟨"q", "CPI_rog", "2016-04-21", 1234 / 10⟩
        (upsert ⟨"q", "CPI_rog", "2016-04-21", 1234 / 10⟩ []) =
      upsert ⟨"q", "CPI_rog", "2016-04-21", 1234 / 10⟩ [] :=
  ⟨(C9_upsert_idempotent ⟨"q", "CPI_rog", "2016-04-21", 1234 / 10⟩ [] (by decide)).1,
   (C9_upsert_idempotent ⟨"q", "CPI_rog", "2016-04-21", 1234 / 10⟩ [] (by decide)).2.2.1⟩

/-- C10: when the integer tokens are exactly two occurrences of the same
year string `Y`, value-based removal pops each occurrence once:
`start_date` is Jan 1 of `Y`, `end_date` is Dec 31 of `Y`, both occurrences
leave the token list, and no occurrence of `Y` remains to become the unit. -/
theorem C10_duplicate_year (today : PyDate) (tokens : List String) (y : String)
    (hf : tokens.filter pyIsDigit = [y, y])
    (hy1 : 1 ≤ strToNat y) (hy2 : strToNat y ≤ 9999) :
    getDatesDict today tokens =
      .ok ({ start_date := some (fmtDate (strToNat y) 1 1),
             end_date := fmtDate (strToNat y) 12 31 },
           (tokens.erase y).erase y) ∧
    y ∉ (tokens.erase y).erase y := by
  refine ⟨getDatesDict_two_years hf hy1 hy2 hy1 hy2, ?_⟩
  have hy : pyIsDigit y = true := by
    have hmem : y ∈ tokens.filter pyIsDigit := by rw [hf]; simp
    exact (List.mem_filter.mp hmem).2
  have hc : List.count y tokens = 2 := by
    have h2 := List.count_filter (l := tokens) (p := pyIsDigit) (a := y) hy
    rw [hf] at h2
    simpa using h2.symm
  intro hmem
  have h0 : List.count y ((tokens.erase y).erase y) = 0 := by
    rw [List.count_erase_self, List.count_erase_self, hc]
  exact absurd (List.count_pos_iff.mpr hmem) (by omega)

theorem C10_duplicate_year_witness :
    getDatesDict ⟨2026, 10, 12⟩ ["2015", "2015"] =
      .ok ({ start_date := some (fmtDate (strToNat "2015") 1 1),
             end_date := fmtDate (strToNat "2015") 12 31 },
           (["2015", "2015"].erase "2015").erase "2015") ∧
    "2015" ∉ (["2015", "2015"].erase "2015").erase "2015" :=
  C10_duplicate_year ⟨2026, 10, 12⟩ ["2015", "2015"] "2015"
    (by decide) (by decide) (by decide)
